import Mathlib

set_option maxHeartbeats 1000000

/-!
Shallow embedding of the Infrastructure Failure Management Agent
(src/core.py): the world model, the tool layer, the planning step and
the FSM driver, together with theorems settling the specification
claims about them.

Modelling conventions:
* Python dicts preserve insertion order; they are embedded as
  association lists (`List (String × _)`) with lookup = first match.
* Python exceptions (`KeyError` from direct dict indexing) are embedded
  as `Except.error`; the partially mutated world is returned alongside,
  matching the fact that mutations made before the exception persist in
  the global `WORLD_STATE`.
* Observation strings produced by the Python code are embedded as a
  structured `Observation` type carrying the same data.
-/

inductive NodeStatus where
  | Operational
  | Broken
  | Repairing
deriving DecidableEq, Repr

inductive CrewStatus where
  | Available
  | Busy
deriving DecidableEq, Repr

inductive Criticality where
  | Low
  | Medium
  | High
  | Critical
deriving DecidableEq, Repr

structure NodeData where
  status : NodeStatus
  type : String
  population_affected : Nat
  criticality : Criticality
deriving DecidableEq, Repr

structure CrewData where
  status : CrewStatus
  specialty : String
deriving DecidableEq, Repr

/-- The world model: nodes and crews with mutable statuses (core.py `WORLD_STATE` shape). -/
structure World where
  nodes : List (String × NodeData)
  crews : List (String × CrewData)
deriving DecidableEq, Repr

/-- The concrete initial `WORLD_STATE` of core.py lines 11-26. -/
def WORLD_STATE : World :=
  { nodes :=
      [ ("Node_Water_Pump_A", { status := .Broken, type := "Water", population_affected := 5000, criticality := .High }),
        ("Node_Server_B", { status := .Operational, type := "Internet", population_affected := 200, criticality := .Low }),
        ("Node_Power_Substation_C", { status := .Broken, type := "Power", population_affected := 15000, criticality := .Critical }),
        ("Node_Relay_D", { status := .Operational, type := "Telecom", population_affected := 1000, criticality := .Medium }),
        ("Node_Hospital_Generator", { status := .Broken, type := "Power", population_affected := 3000, criticality := .Critical }),
        ("Node_Water_Treatment", { status := .Broken, type := "Water", population_affected := 8000, criticality := .High }) ],
    crews :=
      [ ("Crew_Alpha", { status := .Available, specialty := "General" }),
        ("Crew_Beta", { status := .Available, specialty := "Electrical" }),
        ("Crew_Gamma", { status := .Available, specialty := "Water" }),
        ("Crew_Delta", { status := .Busy, specialty := "General" }) ] }

/-- core.py line 31: ids of nodes whose status is Broken, in insertion order. -/
def detect_failure_nodes (w : World) : List String :=
  (w.nodes.filter (fun kv => kv.2.status == NodeStatus.Broken)).map (fun kv => kv.1)

structure ImpactReport where
  node_id : String
  type : String
  population_affected : Nat
  criticality : Criticality
deriving DecidableEq, Repr

/-- core.py line 34: a report copied from the node, or `none` when the id is
absent (the Python code returns an error dict in that case). -/
def estimate_impact (w : World) (node_id : String) : Option ImpactReport :=
  (List.lookup node_id w.nodes).map (fun node =>
    { node_id := node_id, type := node.type,
      population_affected := node.population_affected, criticality := node.criticality })

/-- core.py line 53: status snapshot of every crew. -/
def check_crew_availability (w : World) : List (String × CrewStatus) :=
  w.crews.map (fun kv => (kv.1, kv.2.status))

/-- Dict-style update of the status of node `id` (core.py line 47). -/
def setNodeStatus (nodes : List (String × NodeData)) (id : String) (s : NodeStatus) :
    List (String × NodeData) :=
  nodes.map (fun kv => if kv.1 == id then (kv.1, { kv.2 with status := s }) else kv)

/-- Dict-style update of the status of crew `id` (core.py line 48). -/
def setCrewStatus (crews : List (String × CrewData)) (id : String) (s : CrewStatus) :
    List (String × CrewData) :=
  crews.map (fun kv => if kv.1 == id then (kv.1, { kv.2 with status := s }) else kv)

def crewStatusName : CrewStatus → String
  | .Available => "Available"
  | .Busy => "Busy"

/-- The loop body of core.py lines 42-50, one zipped pair at a time.
Direct dict indexing `WORLD_STATE["crews"][c]` / `WORLD_STATE["nodes"][n]`
raises `KeyError` on an unknown id: embedded as `Except.error`, keeping the
world mutated so far (the Python exception aborts the remaining pairs but
earlier mutations persist). -/
def assignRun : List (String × String) → World → Except String (List (String × String)) × World
  | [], w => (Except.ok [], w)
  | (n, c) :: rest, w =>
    match List.lookup c w.crews with
    | none => (Except.error ("KeyError: " ++ c), w)
    | some cd =>
      if cd.status ≠ CrewStatus.Available then
        let r := assignRun rest w
        (r.1.map (fun l => (c ++ "->" ++ n, "Failed (Crew " ++ crewStatusName cd.status ++ ")") :: l), r.2)
      else
        match List.lookup n w.nodes with
        | none => (Except.error ("KeyError: " ++ n), w)
        | some _ =>
          let w1 : World := { nodes := setNodeStatus w.nodes n NodeStatus.Repairing,
                              crews := setCrewStatus w.crews c CrewStatus.Busy }
          let r := assignRun rest w1
          (r.1.map (fun l => (c ++ "->" ++ n, "Success") :: l), r.2)

/-- core.py lines 40-51: `zip(node_ids, crew_ids)` silently truncates to the
shorter list; the per-pair outcome map is embedded as an insertion-ordered
association list of the written key-value pairs. Divergence to note: the
Python `results` is a dict keyed by `c ++ "->" ++ n`, so writing the same
(node, crew) pair twice keeps ONE entry (first position, last value), while
this list keeps both writes. No theorem below depends on that corner: the
statements concern world mutations, error propagation, truncation, single
pairs, or per-written-value properties, which coincide with the dict. -/
def assign_repair_crew (node_ids crew_ids : List String) (w : World) :
    Except String (List (String × String)) × World :=
  assignRun (node_ids.zip crew_ids) w

def nodeStatus (w : World) (n : String) : Option NodeStatus :=
  (List.lookup n w.nodes).map (fun d => d.status)

def crewStatus (w : World) (c : String) : Option CrewStatus :=
  (List.lookup c w.crews).map (fun d => d.status)

/-! ## Planning algorithm (core.py lines 193-223) -/

/-- core.py line 201: `priority = {"Critical": 4, "High": 3, "Medium": 2, "Low": 1}`. -/
def priorityRank : Criticality → Nat
  | .Critical => 4
  | .High => 3
  | .Medium => 2
  | .Low => 1

/-- `keyGE a b` holds when `a` may come weakly before `b` in the descending
sort of core.py line 202: the sort key is `(priorityRank, population_affected)`
with `reverse=True`. -/
def keyGE (a b : ImpactReport) : Prop :=
  priorityRank b.criticality < priorityRank a.criticality ∨
    (priorityRank a.criticality = priorityRank b.criticality ∧
      b.population_affected ≤ a.population_affected)

instance : DecidableRel keyGE := fun a b =>
  decidable_of_iff (priorityRank b.criticality < priorityRank a.criticality ∨
    (priorityRank a.criticality = priorityRank b.criticality ∧
      b.population_affected ≤ a.population_affected)) Iff.rfl

instance : IsTotal ImpactReport keyGE :=
  ⟨fun a b => by unfold keyGE; omega⟩

instance : IsTrans ImpactReport keyGE :=
  ⟨fun a b c hab hbc => by unfold keyGE at hab hbc ⊢; omega⟩

/-- core.py line 202: `impacts.sort(key=lambda x: (priority[...], pop), reverse=True)`.
Python's `list.sort` is a stable sort; with `reverse=True` it is the stable sort
along the total transitive relation `keyGE`, and a stable sort along a total
transitive relation is unique, so the structurally recursive `insertionSort`
(which is stable) computes exactly the Python result. -/
def planSort (l : List ImpactReport) : List ImpactReport :=
  List.insertionSort keyGE l

/-- core.py lines 209-215: pair the i-th sorted report with the i-th available
crew, dropping reports beyond the crew count. -/
def make_plan (impacts : List ImpactReport) (available_crews : List String) :
    List (String × String) :=
  ((planSort impacts).zip available_crews).map (fun p => (p.1.node_id, p.2))

/-! ## FSM driver (core.py lines 73-265) -/

inductive AgentState where
  | DETECT
  | ANALYZE
  | PLAN
  | ACT
  | FINAL
deriving DecidableEq, Repr

/-- The `arguments` object of the oracle's decision; absent keys are `none`. -/
structure Arguments where
  node_id : Option String := none
  node_ids : Option (List String) := none
  crew_ids : Option (List String) := none
deriving DecidableEq, Repr

/-- The oracle's parsed output (core.py lines 60-68, 141-143). -/
structure Decision where
  thought : String := "No reasoning"
  action : String := "none"
  arguments : Arguments := {}
deriving DecidableEq, Repr

/-- Python truthiness of `args.get("node_id")`: present and non-empty. -/
def truthyStr : Option String → Bool
  | none => false
  | some s => !s.isEmpty

/-- Python truthiness of `args.get("node_ids")`: present and non-empty. -/
def truthyList : Option (List String) → Bool
  | none => false
  | some l => !l.isEmpty

/-- Structured embedding of the observation strings of `execute_state_action`. -/
inductive Observation where
  | found (nodes : List String)
  | analyzedOne (node : String) (crit : Criticality) (pop : Nat)
  | allAnalyzed (count : Nat)
  | cannotAnalyze (node : Option String)
  | noImpacts
  | planned (plan : List (String × String))
  | noCrews
  | assigned (results : List (String × String)) (busy_count : Nat)
  | invalidState
deriving DecidableEq, Repr

/-- One record of `memory["history"]` (core.py lines 154-158); the recorded
state is `self.state` AFTER `execute_state_action` has advanced it. -/
structure HistoryEntry where
  step : Nat
  state : AgentState
  thought : String
  action : String
  observation : Observation
  crews_status : List (String × CrewStatus)
deriving DecidableEq, Repr

/-- The agent object (core.py lines 76-81): FSM state, step counter, budget and
`memory` (context keys `failures`, `impact_reports`, `repair_plan`; `history`).
An absent context key is `none`. -/
structure InfrastructureAgent where
  state : AgentState := .DETECT
  step_count : Nat := 0
  max_steps : Nat := 20
  context_failures : Option (List String) := none
  context_impact_reports : Option (List ImpactReport) := none
  context_repair_plan : Option (List (String × String)) := none
  history : List HistoryEntry := []
deriving DecidableEq, Repr

/-- `InfrastructureAgent.__init__` with a given `max_steps`. -/
def initAgent (max_steps : Nat) : InfrastructureAgent :=
  { max_steps := max_steps }

def availableCrews (w : World) : List String :=
  (w.crews.filter (fun kv => kv.2.status == CrewStatus.Available)).map (fun kv => kv.1)

def busyCount (w : World) : Nat :=
  ((w.crews.filter (fun kv => kv.2.status == CrewStatus.Busy)).map (fun kv => kv.1)).length

/-- DETECT branch (core.py lines 162-169). The proposed action is overridden
unconditionally; the result does not depend on the oracle decision. -/
def execDETECT (ag : InfrastructureAgent) (w : World) :
    Except String Observation × InfrastructureAgent × World :=
  let obs := detect_failure_nodes w
  (Except.ok (Observation.found obs),
   { ag with context_failures := some obs,
             state := if obs.isEmpty then AgentState.FINAL else AgentState.ANALYZE }, w)

/-- ANALYZE branch (core.py lines 172-190). The substitute
`remaining[0] if remaining else None` is taken only when the proposed action
differs from `estimate_impact` or `node_id` is falsy; a present but invalid or
already-analyzed id is NOT substituted and falls to the reject branch.
(In the unreachable case of an analyzable id absent from the world, Python
appends the error dict and then raises `KeyError` reading `node_id` from it;
embedded directly as the error, reports unchanged.) -/
def execANALYZE (ag : InfrastructureAgent) (w : World) (action : String) (args : Arguments)
    (failures analyzed remaining : List String) :
    Except String Observation × InfrastructureAgent × World :=
  let node_id : Option String :=
    if action ≠ "estimate_impact" ∨ ¬ truthyStr args.node_id then remaining.head?
    else args.node_id
  match node_id with
  | none => (Except.ok (Observation.cannotAnalyze none), ag, w)
  | some n =>
    if ¬ n.isEmpty ∧ n ∈ failures ∧ n ∉ analyzed then
      match estimate_impact w n with
      | none => (Except.error ("KeyError: " ++ n), ag, w)
      | some r =>
        let reports := (ag.context_impact_reports.getD []) ++ [r]
        let new_analyzed := reports.map (fun x => x.node_id)
        let ag1 := { ag with context_impact_reports := some reports }
        if failures.all (fun m => new_analyzed.contains m) then
          (Except.ok (Observation.allAnalyzed failures.length),
           { ag1 with state := AgentState.PLAN }, w)
        else
          (Except.ok (Observation.analyzedOne n r.criticality r.population_affected), ag1, w)
    else (Except.ok (Observation.cannotAnalyze (some n)), ag, w)

/-- PLAN branch (core.py lines 193-223). The sort is in place: the stored
`impact_reports` become the sorted list. -/
def execPLAN (ag : InfrastructureAgent) (w : World) (available_crews : List String) :
    Except String Observation × InfrastructureAgent × World :=
  let impacts := ag.context_impact_reports.getD []
  if impacts.isEmpty then
    (Except.ok Observation.noImpacts, { ag with state := AgentState.FINAL }, w)
  else
    let plan := make_plan impacts available_crews
    let ag1 := { ag with context_impact_reports := some (planSort impacts),
                         context_repair_plan := some plan }
    if plan.isEmpty then
      (Except.ok Observation.noCrews, { ag1 with state := AgentState.FINAL }, w)
    else
      (Except.ok (Observation.planned plan), { ag1 with state := AgentState.ACT }, w)

/-- The id lists the ACT branch passes to `assign_repair_crew` (core.py lines
229-235): the stored plan when the proposed action is wrong or `node_ids` is
falsy, else the oracle's argument lists. -/
def actIds (ag : InfrastructureAgent) (action : String) (args : Arguments) :
    List String × List String :=
  let plan := ag.context_repair_plan.getD []
  if action ≠ "assign_repair_crew" ∨ ¬ truthyList args.node_ids then
    (plan.map (fun p => p.1), plan.map (fun p => p.2))
  else
    (args.node_ids.getD [], args.crew_ids.getD [])

/-- ACT branch (core.py lines 226-246). When the proposed action differs from
`assign_repair_crew` or `node_ids` is falsy, BOTH id lists are taken from the
stored plan (wholesale replacement); `self.state = FINAL` runs only after
`assign_repair_crew` returns, so an exception leaves the state at ACT. -/
def execACT (ag : InfrastructureAgent) (w : World) (action : String) (args : Arguments) :
    Except String Observation × InfrastructureAgent × World :=
  let ids := actIds ag action args
  match assign_repair_crew ids.1 ids.2 w with
  | (Except.error e, w1) => (Except.error e, ag, w1)
  | (Except.ok out, w1) =>
    (Except.ok (Observation.assigned out (busyCount w1)),
     { ag with state := AgentState.FINAL }, w1)

/-- core.py lines 160-248: dispatch on the current FSM state. -/
def execute_state_action (ag : InfrastructureAgent) (w : World) (action : String)
    (args : Arguments) (failures analyzed remaining available_crews : List String) :
    Except String Observation × InfrastructureAgent × World :=
  match ag.state with
  | .DETECT => execDETECT ag w
  | .ANALYZE => execANALYZE ag w action args failures analyzed remaining
  | .PLAN => execPLAN ag w available_crews
  | .ACT => execACT ag w action args
  | .FINAL => (Except.ok Observation.invalidState, ag, w)

/-- An oracle behaviour: any function of the visible run state. The Python
oracle sees a prompt and a context JSON derived from exactly this data. -/
def Oracle : Type :=
  InfrastructureAgent → World → Decision

/-- One driver step (core.py lines 114-158): increment the counter, snapshot
the context, get the decision, execute, append the history record (the record
is not appended when the execution raises). -/
def InfrastructureAgent.step (oracle : Oracle) (ag : InfrastructureAgent) (w : World) :
    Except String Unit × InfrastructureAgent × World :=
  let ag1 := { ag with step_count := ag.step_count + 1 }
  let available_crews := availableCrews w
  let failures := ag.context_failures.getD []
  let analyzed := (ag.context_impact_reports.getD []).map (fun r => r.node_id)
  let remaining :=
    if ag.state = AgentState.ANALYZE then failures.filter (fun n => !analyzed.contains n)
    else []
  let d := oracle ag w
  match execute_state_action ag1 w d.action d.arguments failures analyzed remaining available_crews with
  | (Except.error e, ag2, w2) => (Except.error e, ag2, w2)
  | (Except.ok obs, ag2, w2) =>
    let entry : HistoryEntry :=
      { step := ag1.step_count, state := ag2.state, thought := d.thought, action := d.action,
        observation := obs, crews_status := check_crew_availability w2 }
    (Except.ok (), { ag2 with history := ag2.history ++ [entry] }, w2)

/-- The while loop of core.py lines 263-265, fuelled; the guard is
`state != FINAL and step_count < max_steps`. An exception in a step aborts
the loop (and in Python the whole run). -/
def runLoop (oracle : Oracle) : Nat → InfrastructureAgent → World →
    Except String Unit × InfrastructureAgent × World
  | 0, ag, w => (Except.ok (), ag, w)
  | fuel + 1, ag, w =>
    if ag.state = AgentState.FINAL ∨ ag.max_steps ≤ ag.step_count then (Except.ok (), ag, w)
    else
      match InfrastructureAgent.step oracle ag w with
      | (Except.error e, ag1, w1) => (Except.error e, ag1, w1)
      | (Except.ok _, ag1, w1) => runLoop oracle fuel ag1 w1

/-- `InfrastructureAgent.run`: since every step increments `step_count` by one,
`max_steps - step_count` units of fuel make `runLoop` exactly the while loop. -/
def runAgent (oracle : Oracle) (ag : InfrastructureAgent) (w : World) :
    Except String Unit × InfrastructureAgent × World :=
  runLoop oracle (ag.max_steps - ag.step_count) ag w

/-! ## Helper lemmas -/

theorem zip_take_min {α β : Type} : ∀ (as : List α) (bs : List β),
    (as.take (min as.length bs.length)).zip (bs.take (min as.length bs.length)) = as.zip bs
  | [], _ => by simp
  | _ :: _, [] => by simp
  | a :: as, b :: bs => by
    simp only [List.length_cons, Nat.succ_min_succ, List.take_succ_cons, List.zip_cons_cons]
    rw [zip_take_min as bs]

/-- When `assignRun` raises no exception, every recorded outcome value is
either "Success" or "Failed (Crew Busy)" — in particular, no "Invalid ID"
outcome is ever produced. The property is about written key-value pairs, so it
transfers to the Python dict as well: the dict collapsing duplicate
`c->n` keys only drops written pairs, and the surviving values are among the
written ones. -/
theorem assignRun_values (ps : List (String × String)) :
    ∀ (w : World) (out : List (String × String)),
      (assignRun ps w).1 = Except.ok out →
      ∀ kv ∈ out, kv.2 = "Success" ∨ kv.2 = "Failed (Crew Busy)" := by
  induction ps with
  | nil =>
    intro w out h kv hkv
    simp [assignRun] at h
    rw [h] at hkv
    simp at hkv
  | cons p rest ih =>
    intro w out h kv hkv
    obtain ⟨n, c⟩ := p
    simp only [assignRun] at h
    cases hl : List.lookup c w.crews with
    | none => simp [hl] at h
    | some cd =>
      simp only [hl] at h
      split at h
      · next hst =>
        cases hr : (assignRun rest w).1 with
        | error e => simp [hr, Except.map] at h
        | ok l =>
          simp only [hr, Except.map] at h
          injection h with h2
          rw [← h2] at hkv
          rcases List.mem_cons.mp hkv with hkv | hkv
          · right
            cases hcs : cd.status with
            | Available => exact absurd hcs hst
            | Busy =>
              rw [hkv]
              rw [hcs]
              rfl
          · exact ih w l hr kv hkv
      · cases hn : List.lookup n w.nodes with
        | none => simp [hn] at h
        | some nd =>
          simp only [hn] at h
          cases hr : (assignRun rest
              { nodes := setNodeStatus w.nodes n NodeStatus.Repairing,
                crews := setCrewStatus w.crews c CrewStatus.Busy }).1 with
          | error e => simp [hr, Except.map] at h
          | ok l =>
            simp only [hr, Except.map] at h
            injection h with h2
            rw [← h2] at hkv
            rcases List.mem_cons.mp hkv with hkv | hkv
            · left
              rw [hkv]
            · exact ih _ l hr kv hkv

theorem lookup_setNodeStatus (m : List (String × NodeData)) (c id : String) (s : NodeStatus) :
    List.lookup c (setNodeStatus m id s) =
      (List.lookup c m).map (fun d => if c = id then { d with status := s } else d) := by
  induction m with
  | nil => rfl
  | cons kv m ih =>
    obtain ⟨k, d⟩ := kv
    simp only [setNodeStatus, List.map_cons] at ih ⊢
    by_cases hk : c = k
    · subst hk
      by_cases hid : c = id <;> simp [hid, List.lookup_cons, beq_iff_eq]
    · have hck : (c == k) = false := beq_eq_false_iff_ne.mpr hk
      by_cases hid : k = id
      · subst hid
        rw [if_pos (beq_self_eq_true k)]
        simp only [List.lookup_cons, hck]
        exact ih
      · have h2 : ¬ ((k == id) = true) := by simp [hid]
        rw [if_neg h2]
        simp only [List.lookup_cons, hck]
        exact ih

theorem lookup_setCrewStatus (m : List (String × CrewData)) (c id : String) (s : CrewStatus) :
    List.lookup c (setCrewStatus m id s) =
      (List.lookup c m).map (fun d => if c = id then { d with status := s } else d) := by
  induction m with
  | nil => rfl
  | cons kv m ih =>
    obtain ⟨k, d⟩ := kv
    simp only [setCrewStatus, List.map_cons] at ih ⊢
    by_cases hk : c = k
    · subst hk
      by_cases hid : c = id <;> simp [hid, List.lookup_cons, beq_iff_eq]
    · have hck : (c == k) = false := beq_eq_false_iff_ne.mpr hk
      by_cases hid : k = id
      · subst hid
        rw [if_pos (beq_self_eq_true k)]
        simp only [List.lookup_cons, hck]
        exact ih
      · have h2 : ¬ ((k == id) = true) := by simp [hid]
        rw [if_neg h2]
        simp only [List.lookup_cons, hck]
        exact ih

/-! ## C2: mismatched-length id lists -/

/-- C2, counterexample: calling `assign_repair_crew` with a 2-node list and a
1-crew list raises no ArgumentMismatchError-equivalent signal — it returns a
successful outcome for the zipped prefix and DOES mutate the world model
(`Node_Water_Pump_A` becomes Repairing and `Crew_Alpha` becomes Busy). -/
theorem C2_counterexample :
    (["Node_Water_Pump_A", "Node_Server_B"].length ≠ (["Crew_Alpha"] : List String).length) ∧
    (assign_repair_crew ["Node_Water_Pump_A", "Node_Server_B"] ["Crew_Alpha"] WORLD_STATE).1 =
      Except.ok [("Crew_Alpha->Node_Water_Pump_A", "Success")] ∧
    nodeStatus (assign_repair_crew ["Node_Water_Pump_A", "Node_Server_B"] ["Crew_Alpha"]
      WORLD_STATE).2 "Node_Water_Pump_A" = some NodeStatus.Repairing ∧
    crewStatus (assign_repair_crew ["Node_Water_Pump_A", "Node_Server_B"] ["Crew_Alpha"]
      WORLD_STATE).2 "Crew_Alpha" = some CrewStatus.Busy :=
  ⟨by decide, rfl, rfl, rfl⟩

/-- C2, amended: `assign_repair_crew` with mismatched-length lists signals no
error; `zip` silently truncates both lists to the shorter length, and the call
behaves exactly like the call on the truncated equal-length prefixes
(mutating the world for every successful truncated pair). -/
theorem C2_amended_theorem (node_ids crew_ids : List String) (w : World) :
    assign_repair_crew node_ids crew_ids w =
      assign_repair_crew (node_ids.take (min node_ids.length crew_ids.length))
        (crew_ids.take (min node_ids.length crew_ids.length)) w := by
  unfold assign_repair_crew
  rw [zip_take_min]

/-! ## C3: unknown node/crew ids -/

/-- C3, counterexample: an unknown crew id in the first pair makes
`assign_repair_crew` raise a `KeyError` (aborting the run) instead of recording
a per-pair "Invalid ID" failure; the second, fully valid pair is NOT processed
(the world is completely unchanged). -/
theorem C3_counterexample :
    (assign_repair_crew ["Node_Water_Pump_A", "Node_Water_Treatment"] ["NoSuchCrew", "Crew_Alpha"]
        WORLD_STATE).1 = Except.error "KeyError: NoSuchCrew" ∧
    (assign_repair_crew ["Node_Water_Pump_A", "Node_Water_Treatment"] ["NoSuchCrew", "Crew_Alpha"]
        WORLD_STATE).2 = WORLD_STATE :=
  ⟨rfl, rfl⟩

/-- C3, amended: a pair whose crew id is unknown (or whose node id is unknown
while the crew is Available) raises a `KeyError`-style error that terminates
the whole operation at that pair, with no outcome recorded for it and no
further pair processed; per-pair "Invalid ID" outcomes are never produced —
every recorded outcome value is "Success" or "Failed (Crew Busy)". -/
theorem C3_amended_theorem :
    (∀ (n c : String) (rest : List (String × String)) (w : World),
        List.lookup c w.crews = none →
        assignRun ((n, c) :: rest) w = (Except.error ("KeyError: " ++ c), w)) ∧
    (∀ (n c : String) (rest : List (String × String)) (w : World) (cd : CrewData),
        List.lookup c w.crews = some cd → cd.status = CrewStatus.Available →
        List.lookup n w.nodes = none →
        assignRun ((n, c) :: rest) w = (Except.error ("KeyError: " ++ n), w)) ∧
    (∀ (ps : List (String × String)) (w : World) (out : List (String × String)),
        (assignRun ps w).1 = Except.ok out →
        ∀ kv ∈ out, kv.2 = "Success" ∨ kv.2 = "Failed (Crew Busy)") := by
  refine ⟨?_, ?_, assignRun_values⟩
  · intro n c rest w h
    simp [assignRun, h]
  · intro n c rest w cd h hs hn
    simp [assignRun, h, hs, hn]

theorem C3_witness :
    assignRun [("Node_Water_Pump_A", "NoSuchCrew")] WORLD_STATE =
      (Except.error "KeyError: NoSuchCrew", WORLD_STATE) ∧
    assignRun [("NoSuchNode", "Crew_Alpha")] WORLD_STATE =
      (Except.error "KeyError: NoSuchNode", WORLD_STATE) ∧
    ((("Crew_Alpha->Node_Water_Pump_A", "Success") : String × String).2 = "Success" ∨
      (("Crew_Alpha->Node_Water_Pump_A", "Success") : String × String).2 =
        "Failed (Crew Busy)") :=
  ⟨C3_amended_theorem.1 "Node_Water_Pump_A" "NoSuchCrew" [] WORLD_STATE rfl,
   C3_amended_theorem.2.1 "NoSuchNode" "Crew_Alpha" [] WORLD_STATE
     { status := .Available, specialty := "General" } rfl rfl rfl,
   C3_amended_theorem.2.2 [("Node_Water_Pump_A", "Crew_Alpha")] WORLD_STATE
     [("Crew_Alpha->Node_Water_Pump_A", "Success")] rfl
     ("Crew_Alpha->Node_Water_Pump_A", "Success") (by decide)⟩

/-! ## C10: node status is never checked -/

/-- C10: `assign_repair_crew` never inspects the node's current status — for a
known Available crew and ANY known node (whatever its prior status, including
Operational), the pair succeeds and the node is set to Repairing. -/
theorem C10_theorem (w : World) (n c : String) (nd : NodeData) (cd : CrewData)
    (hn : List.lookup n w.nodes = some nd) (hc : List.lookup c w.crews = some cd)
    (hcs : cd.status = CrewStatus.Available) :
    (assign_repair_crew [n] [c] w).1 = Except.ok [(c ++ "->" ++ n, "Success")] ∧
    nodeStatus (assign_repair_crew [n] [c] w).2 n = some NodeStatus.Repairing := by
  unfold assign_repair_crew
  simp only [List.zip_cons_cons, List.zip_nil_right]
  simp only [assignRun, hc, hcs, hn]
  constructor
  · simp [Except.map]
  · simp [nodeStatus, lookup_setNodeStatus, hn]

/-- C10 witness: `Node_Server_B` is Operational (not Broken) in the initial
world, yet assigning the Available `Crew_Alpha` to it succeeds and moves it to
Repairing. -/
theorem C10_witness :
    nodeStatus WORLD_STATE "Node_Server_B" = some NodeStatus.Operational ∧
    (assign_repair_crew ["Node_Server_B"] ["Crew_Alpha"] WORLD_STATE).1 =
      Except.ok [("Crew_Alpha->Node_Server_B", "Success")] ∧
    nodeStatus (assign_repair_crew ["Node_Server_B"] ["Crew_Alpha"] WORLD_STATE).2 "Node_Server_B" =
      some NodeStatus.Repairing :=
  ⟨rfl,
   C10_theorem WORLD_STATE "Node_Server_B" "Crew_Alpha"
     { status := .Operational, type := "Internet", population_affected := 200, criticality := .Low }
     { status := .Available, specialty := "General" } rfl rfl rfl⟩

/-! ## C4: repair-plan shape -/

theorem map_fst_zip_eq_take {α β : Type} :
    ∀ (as : List α) (bs : List β), (as.zip bs).map Prod.fst = as.take bs.length
  | [], _ => by simp
  | _ :: _, [] => by simp
  | a :: as, b :: bs => by
    simp only [List.zip_cons_cons, List.map_cons, List.length_cons, List.take_succ_cons]
    rw [map_fst_zip_eq_take as bs]

theorem map_snd_zip_eq_take {α β : Type} :
    ∀ (as : List α) (bs : List β), (as.zip bs).map Prod.snd = bs.take as.length
  | [], _ => by simp
  | _ :: _, [] => by simp
  | a :: as, b :: bs => by
    simp only [List.zip_cons_cons, List.map_cons, List.length_cons, List.take_succ_cons]
    rw [map_snd_zip_eq_take as bs]

/-- C4: for reports with pairwise-distinct node ids and pairwise-distinct
available-crew ids (both hold for real inputs: at most one report per node,
crews are dict keys), the plan has length at most min(#reports, #crews), no
node id repeats, and no crew id repeats. -/
theorem C4_theorem (impacts : List ImpactReport) (crews : List String)
    (h1 : (impacts.map (fun r => r.node_id)).Nodup) (h2 : crews.Nodup) :
    (make_plan impacts crews).length ≤ min impacts.length crews.length ∧
    ((make_plan impacts crews).map Prod.fst).Nodup ∧
    ((make_plan impacts crews).map Prod.snd).Nodup := by
  refine ⟨?_, ?_, ?_⟩
  · simp [make_plan, planSort, List.length_insertionSort]
  · have hmap : (make_plan impacts crews).map Prod.fst =
        (((planSort impacts).zip crews).map Prod.fst).map (fun r => r.node_id) := by
      simp [make_plan, List.map_map]
    rw [hmap, map_fst_zip_eq_take]
    have hsub : List.Sublist (((planSort impacts).take crews.length).map (fun r => r.node_id))
        ((planSort impacts).map (fun r => r.node_id)) :=
      (List.take_sublist _ _).map _
    have hperm : List.Perm ((planSort impacts).map (fun r => r.node_id))
        (impacts.map (fun r => r.node_id)) :=
      (List.perm_insertionSort keyGE impacts).map _
    exact (hperm.nodup_iff.mpr h1).sublist hsub
  · have hmap : (make_plan impacts crews).map Prod.snd =
        ((planSort impacts).zip crews).map Prod.snd := by
      simp [make_plan, List.map_map]
    rw [hmap, map_snd_zip_eq_take]
    exact h2.sublist (List.take_sublist _ _)

theorem C4_witness :
    (make_plan
        [ { node_id := "WA", type := "Water", population_affected := 10, criticality := .Low },
          { node_id := "WB", type := "Power", population_affected := 20, criticality := .Critical },
          { node_id := "WC", type := "Power", population_affected := 20, criticality := .Critical } ]
        ["Crew_X", "Crew_Y"]).length ≤
      min
        [ ({ node_id := "WA", type := "Water", population_affected := 10, criticality := .Low } : ImpactReport),
          { node_id := "WB", type := "Power", population_affected := 20, criticality := .Critical },
          { node_id := "WC", type := "Power", population_affected := 20, criticality := .Critical } ].length
        ["Crew_X", "Crew_Y"].length ∧
    ((make_plan
        [ { node_id := "WA", type := "Water", population_affected := 10, criticality := .Low },
          { node_id := "WB", type := "Power", population_affected := 20, criticality := .Critical },
          { node_id := "WC", type := "Power", population_affected := 20, criticality := .Critical } ]
        ["Crew_X", "Crew_Y"]).map Prod.fst).Nodup ∧
    ((make_plan
        [ { node_id := "WA", type := "Water", population_affected := 10, criticality := .Low },
          { node_id := "WB", type := "Power", population_affected := 20, criticality := .Critical },
          { node_id := "WC", type := "Power", population_affected := 20, criticality := .Critical } ]
        ["Crew_X", "Crew_Y"]).map Prod.snd).Nodup :=
  C4_theorem _ _ (by decide) (by decide)

/-! ## C5: the planning sort -/

/-- C5: the planning sort is descending along the key
(criticality rank, population_affected) — `Sorted keyGE` —, it is stable
(a pair tied on both key components that occurs in order in the input still
occurs in that order in the output), and it is idempotent. -/
theorem C5_theorem (l : List ImpactReport) :
    List.Sorted keyGE (planSort l) ∧
    (∀ a b : ImpactReport,
        priorityRank a.criticality = priorityRank b.criticality →
        a.population_affected = b.population_affected →
        List.Sublist [a, b] l → List.Sublist [a, b] (planSort l)) ∧
    planSort (planSort l) = planSort l := by
  refine ⟨List.sorted_insertionSort keyGE l, ?_, ?_⟩
  · intro a b hrank hpop hsub
    exact List.pair_sublist_insertionSort (Or.inr ⟨hrank, le_of_eq hpop.symm⟩) hsub
  · exact (List.sorted_insertionSort keyGE l).insertionSort_eq

def impTieA : ImpactReport :=
  { node_id := "Tie_A", type := "Water", population_affected := 500, criticality := .High }

def impTieB : ImpactReport :=
  { node_id := "Tie_B", type := "Power", population_affected := 500, criticality := .High }

theorem C5_witness :
    List.Sorted keyGE (planSort [impTieA, impTieB]) ∧
    List.Sublist [impTieA, impTieB] (planSort [impTieA, impTieB]) ∧
    planSort (planSort [impTieA, impTieB]) = planSort [impTieA, impTieB] :=
  ⟨(C5_theorem [impTieA, impTieB]).1,
   (C5_theorem [impTieA, impTieB]).2.1 impTieA impTieB rfl rfl (List.Sublist.refl _),
   (C5_theorem [impTieA, impTieB]).2.2⟩

/-! ## World-mutation helper lemmas -/

/-- A crew that is Busy stays Busy through any sequence of assignment pairs:
the only crew mutation ever performed is setting a crew to Busy. -/
theorem assignRun_busy_mono (ps : List (String × String)) :
    ∀ (w : World) (c : String), crewStatus w c = some CrewStatus.Busy →
      crewStatus (assignRun ps w).2 c = some CrewStatus.Busy := by
  induction ps with
  | nil => intro w c h; exact h
  | cons p rest ih =>
    intro w c h
    obtain ⟨n, c'⟩ := p
    simp only [assignRun]
    cases hl : List.lookup c' w.crews with
    | none => simp only [hl]; exact h
    | some cd =>
      simp only [hl]
      split
      · exact ih w c h
      · cases hn : List.lookup n w.nodes with
        | none => simp only [hn]; exact h
        | some nd =>
          simp only [hn]
          apply ih
          obtain ⟨d0, hd0⟩ : ∃ d0, List.lookup c w.crews = some d0 := by
            cases hx : List.lookup c w.crews with
            | none => rw [crewStatus, hx] at h; simp at h
            | some d => exact ⟨d, rfl⟩
          have hbusy : d0.status = CrewStatus.Busy := by
            rw [crewStatus, hd0] at h
            simpa using h
          show crewStatus
            { nodes := setNodeStatus w.nodes n NodeStatus.Repairing,
              crews := setCrewStatus w.crews c' CrewStatus.Busy } c = some CrewStatus.Busy
          rw [crewStatus, lookup_setCrewStatus, hd0]
          by_cases hcc : c = c' <;> simp [hcc, hbusy]

theorem assign_busy_mono (a b : List String) (w : World) (c : String)
    (h : crewStatus w c = some CrewStatus.Busy) :
    crewStatus (assign_repair_crew a b w).2 c = some CrewStatus.Busy :=
  assignRun_busy_mono (a.zip b) w c h

theorem execDETECT_world (ag : InfrastructureAgent) (w : World) :
    (execDETECT ag w).2.2 = w := rfl

theorem execANALYZE_world (ag : InfrastructureAgent) (w : World) (action : String)
    (args : Arguments) (failures analyzed remaining : List String) :
    (execANALYZE ag w action args failures analyzed remaining).2.2 = w := by
  simp only [execANALYZE]
  repeat' split
  all_goals rfl

theorem execPLAN_world (ag : InfrastructureAgent) (w : World) (available_crews : List String) :
    (execPLAN ag w available_crews).2.2 = w := by
  simp only [execPLAN]
  repeat' split
  all_goals rfl

theorem execACT_busy_mono (ag : InfrastructureAgent) (w : World) (action : String)
    (args : Arguments) (c : String) (h : crewStatus w c = some CrewStatus.Busy) :
    crewStatus (execACT ag w action args).2.2 c = some CrewStatus.Busy := by
  simp only [execACT]
  have h2 := assign_busy_mono (actIds ag action args).1 (actIds ag action args).2 w c h
  split
  · next e w1 heq =>
    rw [heq] at h2
    exact h2
  · next out w1 heq =>
    rw [heq] at h2
    exact h2

theorem exec_busy_mono (ag : InfrastructureAgent) (w : World) (action : String)
    (args : Arguments) (failures analyzed remaining available_crews : List String) (c : String)
    (h : crewStatus w c = some CrewStatus.Busy) :
    crewStatus (execute_state_action ag w action args failures analyzed remaining
      available_crews).2.2 c = some CrewStatus.Busy := by
  unfold execute_state_action
  obtain ⟨st, sc, ms, cf, ci, cp, hs⟩ := ag
  cases st
  · rw [execDETECT_world]; exact h
  · rw [execANALYZE_world]; exact h
  · rw [execPLAN_world]; exact h
  · exact execACT_busy_mono _ w action args c h
  · exact h

theorem step_busy_mono (oracle : Oracle) (ag : InfrastructureAgent) (w : World) (c : String)
    (h : crewStatus w c = some CrewStatus.Busy) :
    crewStatus (InfrastructureAgent.step oracle ag w).2.2 c = some CrewStatus.Busy := by
  simp only [InfrastructureAgent.step]
  split
  · next e ag2 w2 heq =>
    have h3 := congrArg (fun t => t.2.2) heq
    dsimp only at h3
    rw [← h3]
    exact exec_busy_mono _ _ _ _ _ _ _ _ c h
  · next obs ag2 w2 heq =>
    have h3 := congrArg (fun t => t.2.2) heq
    dsimp only at h3
    rw [← h3]
    exact exec_busy_mono _ _ _ _ _ _ _ _ c h

theorem runLoop_busy_mono (oracle : Oracle) :
    ∀ (fuel : Nat) (ag : InfrastructureAgent) (w : World) (c : String),
      crewStatus w c = some CrewStatus.Busy →
      crewStatus (runLoop oracle fuel ag w).2.2 c = some CrewStatus.Busy := by
  intro fuel
  induction fuel with
  | zero => intro ag w c h; exact h
  | succ fuel ih =>
    intro ag w c h
    simp only [runLoop]
    split
    · exact h
    · split
      · next e ag1 w1 heq =>
        have h2 := step_busy_mono oracle ag w c h
        rw [heq] at h2
        exact h2
      · next u ag1 w1 heq =>
        apply ih
        have h2 := step_busy_mono oracle ag w c h
        rw [heq] at h2
        exact h2

/-! ## C6: Busy crews are never re-assigned and never released -/

/-- C6: (i) an assignment pair naming a crew that is already Busy is recorded
as a per-pair failure and mutates neither that node nor that crew — the
remaining pairs are processed against the unchanged world; (ii) for every
oracle behaviour and run, a crew that is Busy stays Busy in the final world
(the only crew mutation anywhere in the program is Available to Busy). -/
theorem C6_theorem :
    (∀ (n c : String) (rest : List (String × String)) (w : World) (cd : CrewData),
        List.lookup c w.crews = some cd → cd.status = CrewStatus.Busy →
        assignRun ((n, c) :: rest) w =
          ((assignRun rest w).1.map (fun l => (c ++ "->" ++ n, "Failed (Crew Busy)") :: l),
            (assignRun rest w).2)) ∧
    (∀ (oracle : Oracle) (ag : InfrastructureAgent) (w : World) (c : String),
        crewStatus w c = some CrewStatus.Busy →
        crewStatus (runAgent oracle ag w).2.2 c = some CrewStatus.Busy) := by
  constructor
  · intro n c rest w cd hc hbusy
    simp only [assignRun, hc, hbusy]
    rfl
  · intro oracle ag w c h
    exact runLoop_busy_mono oracle (ag.max_steps - ag.step_count) ag w c h

/-- An oracle that always answers with the fallback decision
(`action = "none"`, empty arguments), as the adapter does on failure. -/
def oracleNone : Oracle := fun _ _ => {}

theorem C6_witness :
    assignRun [("Node_Water_Pump_A", "Crew_Delta")] WORLD_STATE =
      ((assignRun [] WORLD_STATE).1.map
          (fun l => ("Crew_Delta" ++ "->" ++ "Node_Water_Pump_A", "Failed (Crew Busy)") :: l),
        (assignRun [] WORLD_STATE).2) ∧
    crewStatus (runAgent oracleNone (initAgent 15) WORLD_STATE).2.2 "Crew_Delta" =
      some CrewStatus.Busy :=
  ⟨C6_theorem.1 "Node_Water_Pump_A" "Crew_Delta" [] WORLD_STATE
      { status := .Busy, specialty := "General" } rfl rfl,
   C6_theorem.2 oracleNone (initAgent 15) WORLD_STATE "Crew_Delta" rfl⟩

/-! ## C7: loop termination and the step budget -/

theorem exec_counters (ag : InfrastructureAgent) (w : World) (action : String)
    (args : Arguments) (failures analyzed remaining available_crews : List String) :
    (execute_state_action ag w action args failures analyzed remaining
        available_crews).2.1.step_count = ag.step_count ∧
    (execute_state_action ag w action args failures analyzed remaining
        available_crews).2.1.max_steps = ag.max_steps := by
  obtain ⟨st, sc, ms, cf, ci, cp, hs⟩ := ag
  cases st <;>
    simp only [execute_state_action, execDETECT, execANALYZE, execPLAN, execACT] <;>
    (repeat' split) <;>
    simp

theorem step_counters (oracle : Oracle) (ag : InfrastructureAgent) (w : World) :
    (InfrastructureAgent.step oracle ag w).2.1.step_count = ag.step_count + 1 ∧
    (InfrastructureAgent.step oracle ag w).2.1.max_steps = ag.max_steps := by
  simp only [InfrastructureAgent.step]
  split
  · next e ag2 w2 heq =>
    have h1 := congrArg (fun t => t.2.1.step_count) heq
    have h2 := congrArg (fun t => t.2.1.max_steps) heq
    dsimp only at h1 h2 ⊢
    rw [← h1, ← h2]
    exact ⟨(exec_counters _ _ _ _ _ _ _ _).1, (exec_counters _ _ _ _ _ _ _ _).2⟩
  · next obs ag2 w2 heq =>
    have h1 := congrArg (fun t => t.2.1.step_count) heq
    have h2 := congrArg (fun t => t.2.1.max_steps) heq
    dsimp only at h1 h2 ⊢
    constructor
    · show ag2.step_count = ag.step_count + 1
      rw [← h1]
      exact (exec_counters _ _ _ _ _ _ _ _).1
    · show ag2.max_steps = ag.max_steps
      rw [← h2]
      exact (exec_counters _ _ _ _ _ _ _ _).2

theorem runLoop_stops (oracle : Oracle) :
    ∀ (fuel : Nat) (ag : InfrastructureAgent) (w : World),
      ag.max_steps ≤ ag.step_count + fuel →
      ((runLoop oracle fuel ag w).1 = Except.ok () →
          (runLoop oracle fuel ag w).2.1.state = AgentState.FINAL ∨
          (runLoop oracle fuel ag w).2.1.max_steps ≤ (runLoop oracle fuel ag w).2.1.step_count) ∧
      (runLoop oracle fuel ag w).2.1.step_count ≤ max ag.step_count ag.max_steps := by
  intro fuel
  induction fuel with
  | zero =>
    intro ag w hf
    simp only [runLoop]
    exact ⟨fun _ => Or.inr (by omega), le_max_left _ _⟩
  | succ fuel ih =>
    intro ag w hf
    simp only [runLoop]
    split
    · next hguard => exact ⟨fun _ => hguard, le_max_left _ _⟩
    · next hguard =>
      have hlt : ag.step_count < ag.max_steps := by
        rcases not_or.mp hguard with ⟨h1, h2⟩
        omega
      split
      · next e ag1 w1 heq =>
        constructor
        · intro hok
          exact absurd hok (by simp)
        · have hc := (step_counters oracle ag w).1
          rw [heq] at hc
          dsimp only at hc ⊢
          omega
      · next u ag1 w1 heq =>
        have hc := (step_counters oracle ag w).1
        have hm := (step_counters oracle ag w).2
        rw [heq] at hc hm
        dsimp only at hc hm
        have hy := ih ag1 w1 (by omega)
        refine ⟨hy.1, ?_⟩
        have hy2 := hy.2
        omega

/-- C7, amended: the driver loop always terminates within the step budget
(the final step count never exceeds max(initial count, max_steps)); when the
run raises no uncaught tool exception, the loop stops exactly because the
state is FINAL or the budget is exhausted, and budget exhaustion is a graceful
exit, not a crash. An oracle CAN, however, crash the run: an oracle-supplied
ACT argument with an unknown id aborts the run with an uncaught KeyError
before FINAL and below the cap (see the counterexample). -/
theorem C7_amended_theorem (oracle : Oracle) (ag : InfrastructureAgent) (w : World) :
    ((runAgent oracle ag w).1 = Except.ok () →
        (runAgent oracle ag w).2.1.state = AgentState.FINAL ∨
        (runAgent oracle ag w).2.1.max_steps ≤ (runAgent oracle ag w).2.1.step_count) ∧
    (runAgent oracle ag w).2.1.step_count ≤ max ag.step_count ag.max_steps :=
  runLoop_stops oracle (ag.max_steps - ag.step_count) ag w (by omega)

/-- A world with one broken node and one available crew. -/
def worldOne : World :=
  { nodes := [("N1", { status := .Broken, type := "Power", population_affected := 100,
                       criticality := .Critical })],
    crews := [("C1", { status := .Available, specialty := "General" })] }

/-- An oracle that proposes assigning an unknown crew id. -/
def oracleGhost : Oracle := fun _ _ =>
  { action := "assign_repair_crew",
    arguments := { node_ids := some ["N1"], crew_ids := some ["Ghost"] } }

/-- C7, counterexample: under `oracleGhost` the run terminates by an uncaught
KeyError at step 4 — neither in state FINAL nor at the step cap — so the claim
that the loop stops only on FINAL-or-cap, for EVERY oracle behaviour, is false. -/
theorem C7_counterexample :
    (runAgent oracleGhost (initAgent 20) worldOne).1 = Except.error "KeyError: Ghost" ∧
    (runAgent oracleGhost (initAgent 20) worldOne).2.1.state = AgentState.ACT ∧
    (runAgent oracleGhost (initAgent 20) worldOne).2.1.step_count = 4 ∧
    (4 : Nat) < 20 :=
  ⟨rfl, rfl, rfl, by decide⟩

theorem C7_witness :
    ((runAgent oracleNone (initAgent 15) WORLD_STATE).2.1.state = AgentState.FINAL ∨
      (runAgent oracleNone (initAgent 15) WORLD_STATE).2.1.max_steps ≤
        (runAgent oracleNone (initAgent 15) WORLD_STATE).2.1.step_count) ∧
    (runAgent oracleNone (initAgent 15) WORLD_STATE).2.1.step_count ≤
      max (initAgent 15).step_count (initAgent 15).max_steps :=
  ⟨(C7_amended_theorem oracleNone (initAgent 15) WORLD_STATE).1 rfl,
   (C7_amended_theorem oracleNone (initAgent 15) WORLD_STATE).2⟩

/-! ## C8: ACT wholesale-replaces malformed oracle proposals with the plan -/

/-- C8: in state ACT, when the oracle's proposal is missing or malformed
(wrong action name or falsy `node_ids`), the executed assignment uses exactly
the node/crew pairs of the stored RepairPlan — both lists come from the plan,
with no merging of any partial oracle arguments — and when the assignment
returns (no exception), the state becomes FINAL regardless of the per-pair
outcomes; an exception surfaces unchanged and leaves the state at ACT. -/
theorem C8_theorem (oracle : Oracle) (ag : InfrastructureAgent) (w : World)
    (hstate : ag.state = AgentState.ACT)
    (hmal : (oracle ag w).action ≠ "assign_repair_crew" ∨
      ¬ truthyList (oracle ag w).arguments.node_ids) :
    (InfrastructureAgent.step oracle ag w).2.2 =
      (assign_repair_crew ((ag.context_repair_plan.getD []).map (fun p => p.1))
        ((ag.context_repair_plan.getD []).map (fun p => p.2)) w).2 ∧
    (∀ out, (assign_repair_crew ((ag.context_repair_plan.getD []).map (fun p => p.1))
        ((ag.context_repair_plan.getD []).map (fun p => p.2)) w).1 = Except.ok out →
      (InfrastructureAgent.step oracle ag w).2.1.state = AgentState.FINAL) ∧
    (∀ e, (assign_repair_crew ((ag.context_repair_plan.getD []).map (fun p => p.1))
        ((ag.context_repair_plan.getD []).map (fun p => p.2)) w).1 = Except.error e →
      (InfrastructureAgent.step oracle ag w).1 = Except.error e) := by
  obtain ⟨st, sc, ms, cf, ci, cp, hs⟩ := ag
  dsimp only at hstate hmal ⊢
  subst hstate
  have hids : actIds
      { state := AgentState.ACT, step_count := sc + 1, max_steps := ms,
        context_failures := cf, context_impact_reports := ci,
        context_repair_plan := cp, history := hs }
      (oracle
        { state := AgentState.ACT, step_count := sc, max_steps := ms,
          context_failures := cf, context_impact_reports := ci,
          context_repair_plan := cp, history := hs } w).action
      (oracle
        { state := AgentState.ACT, step_count := sc, max_steps := ms,
          context_failures := cf, context_impact_reports := ci,
          context_repair_plan := cp, history := hs } w).arguments =
      ((cp.getD []).map (fun p => p.1), (cp.getD []).map (fun p => p.2)) := by
    simp only [actIds]
    rw [if_pos hmal]
  simp only [InfrastructureAgent.step, execute_state_action, execACT, hids]
  cases hr : assign_repair_crew ((cp.getD []).map (fun p => p.1))
      ((cp.getD []).map (fun p => p.2)) w with
  | mk r1 w1 =>
    cases r1 with
    | error e =>
      refine ⟨rfl, ?_, ?_⟩
      · intro out hout
        simp at hout
      · intro e2 he2
        injection he2 with h3
        rw [← h3]
    | ok out =>
      refine ⟨rfl, ?_, ?_⟩
      · intro out2 hout2
        rfl
      · intro e2 he2
        simp at he2

/-- A reachable ACT-state agent holding the plan [(Node_Water_Pump_A, Crew_Alpha)]. -/
def agACT : InfrastructureAgent :=
  { state := .ACT, step_count := 3, max_steps := 15,
    context_failures := some ["Node_Water_Pump_A"],
    context_impact_reports := some
      [{ node_id := "Node_Water_Pump_A", type := "Water", population_affected := 5000,
         criticality := .High }],
    context_repair_plan := some [("Node_Water_Pump_A", "Crew_Alpha")],
    history := [] }

theorem C8_witness :
    (InfrastructureAgent.step oracleNone agACT WORLD_STATE).2.2 =
      (assign_repair_crew ((agACT.context_repair_plan.getD []).map (fun p => p.1))
        ((agACT.context_repair_plan.getD []).map (fun p => p.2)) WORLD_STATE).2 ∧
    (InfrastructureAgent.step oracleNone agACT WORLD_STATE).2.1.state = AgentState.FINAL :=
  ⟨(C8_theorem oracleNone agACT WORLD_STATE rfl (Or.inl (by decide))).1,
   (C8_theorem oracleNone agACT WORLD_STATE rfl (Or.inl (by decide))).2.1
     [("Crew_Alpha->Node_Water_Pump_A", "Success")] rfl⟩

/-! ## C9: no broken nodes, one-step run -/

/-- C9: for every world with no broken nodes, every oracle behaviour and every
positive step budget, the run executes exactly one step: DETECT finds the
empty list, the state goes directly to FINAL, and the history has exactly one
entry. -/
theorem C9_theorem (oracle : Oracle) (w : World) (max_steps : Nat)
    (hmax : 0 < max_steps) (hempty : detect_failure_nodes w = []) :
    (runAgent oracle (initAgent max_steps) w).1 = Except.ok () ∧
    (runAgent oracle (initAgent max_steps) w).2.1.state = AgentState.FINAL ∧
    (runAgent oracle (initAgent max_steps) w).2.1.step_count = 1 ∧
    (runAgent oracle (initAgent max_steps) w).2.1.history.length = 1 := by
  obtain ⟨k, rfl⟩ : ∃ k, max_steps = k + 1 := ⟨max_steps - 1, by omega⟩
  simp only [runAgent, initAgent, runLoop]
  rw [if_neg (by simp)]
  simp only [InfrastructureAgent.step, execute_state_action, execDETECT, hempty]
  simp only [List.isEmpty_nil, if_pos]
  cases k with
  | zero => simp [runLoop]
  | succ k2 =>
    simp [runLoop]

/-! ## C1: the ANALYZE validation layer -/

theorem contains_eq_false_iff {l : List String} {a : String} :
    l.contains a = false ↔ a ∉ l := by
  simp [List.contains]

/-- Behaviour of the ANALYZE branch: (a) when the proposed action is wrong or
`node_id` is falsy, the head of the remaining list (when nonempty) is the node
actually estimated; (b) in every case, the stored reports are either unchanged
(nothing was estimated) or extended by exactly one report whose node is a
member of the remaining-to-analyze set. -/
theorem execANALYZE_spec (ag : InfrastructureAgent) (w : World) (action : String)
    (args : Arguments) (failures analyzed remaining : List String)
    (hrem : remaining = failures.filter (fun m => !analyzed.contains m))
    (hvalid : ∀ n ∈ failures, (List.lookup n w.nodes).isSome ∧ n.isEmpty = false) :
    ((action ≠ "estimate_impact" ∨ ¬ truthyStr args.node_id) →
      ∀ n, remaining.head? = some n →
        ∃ r, estimate_impact w n = some r ∧
          (execANALYZE ag w action args failures analyzed remaining).2.1.context_impact_reports =
            some ((ag.context_impact_reports.getD []) ++ [r]) ∧ r.node_id = n) ∧
    ((execANALYZE ag w action args failures analyzed remaining).2.1.context_impact_reports =
        ag.context_impact_reports ∨
      ∃ r, (execANALYZE ag w action args failures analyzed remaining).2.1.context_impact_reports =
          some ((ag.context_impact_reports.getD []) ++ [r]) ∧ r.node_id ∈ remaining) := by
  constructor
  · intro hcond n hn
    have hmem : n ∈ remaining := by
      cases hr : remaining with
      | nil => rw [hr] at hn; simp at hn
      | cons a t =>
        rw [hr] at hn
        simp only [List.head?_cons, Option.some.injEq] at hn
        rw [← hn]
        exact List.mem_cons_self a t
    have hmemf : n ∈ failures ∧ (!analyzed.contains n) = true := by
      rw [hrem] at hmem
      exact List.mem_filter.mp hmem
    have hnan : n ∉ analyzed := by
      have h2 := hmemf.2
      rw [Bool.not_eq_true'] at h2
      exact contains_eq_false_iff.mp h2
    obtain ⟨hsome, hne⟩ := hvalid n hmemf.1
    cases hlk : List.lookup n w.nodes with
    | none => rw [hlk] at hsome; simp at hsome
    | some nd =>
      have hest : estimate_impact w n = some
          { node_id := n, type := nd.type, population_affected := nd.population_affected,
            criticality := nd.criticality } := by
        simp [estimate_impact, hlk]
      have hguard : ¬ n.isEmpty ∧ n ∈ failures ∧ n ∉ analyzed :=
        ⟨by simp [hne], hmemf.1, hnan⟩
      refine ⟨_, hest, ?_, rfl⟩
      simp only [execANALYZE, if_pos hcond, hn]
      rw [if_pos hguard]
      simp only [hest]
      split <;> rfl
  · cases hnid : (if action ≠ "estimate_impact" ∨ ¬ truthyStr args.node_id then remaining.head?
        else args.node_id) with
    | none =>
      simp only [execANALYZE, hnid]
      exact Or.inl trivial
    | some n =>
      simp only [execANALYZE, hnid]
      by_cases hguard : ¬ n.isEmpty ∧ n ∈ failures ∧ n ∉ analyzed
      · rw [if_pos hguard]
        cases hest : estimate_impact w n with
        | none =>
          simp only [hest]
          exact Or.inl trivial
        | some r =>
          simp only [hest]
          right
          refine ⟨r, ?_, ?_⟩
          · split <;> rfl
          · have hrn : r.node_id = n := by
              simp only [estimate_impact, Option.map_eq_some'] at hest
              obtain ⟨nd, hnd, hr⟩ := hest
              rw [← hr]
            rw [hrn, hrem]
            refine List.mem_filter.mpr ⟨hguard.2.1, ?_⟩
            rw [Bool.not_eq_true']
            exact contains_eq_false_iff.mpr hguard.2.2
      · rw [if_neg hguard]
        exact Or.inl rfl

/-- A proposed `estimate_impact` with a truthy node id that is invalid (not a
failure) or already analyzed is rejected without substitution: the branch
returns the cannot-analyze observation and leaves agent and world untouched,
for EVERY remaining list. -/
theorem execANALYZE_reject (ag : InfrastructureAgent) (w : World) (action : String)
    (args : Arguments) (failures analyzed remaining : List String) (n : String)
    (hact : action = "estimate_impact")
    (hnid : args.node_id = some n)
    (hne : n.isEmpty = false)
    (hbad : n ∉ failures ∨ n ∈ analyzed) :
    execANALYZE ag w action args failures analyzed remaining =
      (Except.ok (Observation.cannotAnalyze (some n)), ag, w) := by
  have hcond : ¬ (action ≠ "estimate_impact" ∨ ¬ truthyStr args.node_id) := by
    simp [hact, truthyStr, hnid, hne]
  have hguard : ¬ (¬ n.isEmpty ∧ n ∈ failures ∧ n ∉ analyzed) := by
    intro hg
    cases hbad with
    | inl hb => exact hb hg.2.1
    | inr hb => exact hg.2.2 hb
  simp only [execANALYZE]
  rw [if_neg hcond, hnid]
  dsimp only
  rw [if_neg hguard]

/-- In state ANALYZE the step's stored reports are those computed by the
ANALYZE branch on the snapshot context (the history append afterwards does
not touch them). -/
theorem step_reports_ANALYZE (oracle : Oracle) (ag : InfrastructureAgent) (w : World)
    (hstate : ag.state = AgentState.ANALYZE) :
    (InfrastructureAgent.step oracle ag w).2.1.context_impact_reports =
      (execANALYZE { ag with step_count := ag.step_count + 1 } w
        (oracle ag w).action (oracle ag w).arguments
        (ag.context_failures.getD [])
        ((ag.context_impact_reports.getD []).map (fun r => r.node_id))
        ((ag.context_failures.getD []).filter
          (fun m => !(((ag.context_impact_reports.getD []).map
            (fun r => r.node_id)).contains m)))).2.1.context_impact_reports := by
  obtain ⟨st, sc, ms, cf, ci, cp, hsl⟩ := ag
  dsimp only at hstate ⊢
  subst hstate
  simp only [InfrastructureAgent.step]
  split
  · next e ag2 w2 heq =>
    have h3 := congrArg (fun t => t.2.1.context_impact_reports) heq
    dsimp only at h3 ⊢
    rw [← h3]
    rfl
  · next obs ag2 w2 heq =>
    have h3 := congrArg (fun t => t.2.1.context_impact_reports) heq
    dsimp only at h3 ⊢
    rw [← h3]
    rfl

/-- A reachable ANALYZE-state agent: the failures are exactly what DETECT
finds in `WORLD_STATE`, nothing analyzed yet. -/
def agANALYZE : InfrastructureAgent :=
  { state := .ANALYZE, step_count := 1, max_steps := 15,
    context_failures := some ["Node_Water_Pump_A", "Node_Power_Substation_C",
      "Node_Hospital_Generator", "Node_Water_Treatment"],
    context_impact_reports := none, context_repair_plan := none,
    history := [] }

/-- An oracle that proposes `estimate_impact` with an invalid node id. -/
def oracleBogus : Oracle := fun _ _ =>
  { action := "estimate_impact", arguments := { node_id := some "Bogus" } }

/-- C1, counterexample: in state ANALYZE with four unanalyzed failures
remaining, an oracle decision proposing `estimate_impact` with the invalid
node id "Bogus" is NOT replaced by the first remaining unanalyzed node id:
the step performs no impact estimation at all (the report list stays empty
and the state stays ANALYZE), recording only a cannot-analyze observation
for "Bogus". -/
theorem C1_counterexample :
    (InfrastructureAgent.step oracleBogus agANALYZE WORLD_STATE).2.1.context_impact_reports
        = none ∧
    (InfrastructureAgent.step oracleBogus agANALYZE WORLD_STATE).2.1.state
        = AgentState.ANALYZE ∧
    (InfrastructureAgent.step oracleBogus agANALYZE WORLD_STATE).2.1.history.map
        (fun h => h.observation) = [Observation.cannotAnalyze (some "Bogus")] :=
  ⟨rfl, rfl, rfl⟩

/-- C1, amended: the first remaining unanalyzed node id is substituted ONLY
when the proposed action name is wrong or `node_id` is absent/falsy (and then
that head node is the one estimated); a present-but-invalid or
already-analyzed proposed id is rejected without substitution — universally,
such a step performs no estimation (reports unchanged), stays in ANALYZE and
leaves the world untouched. The safety half survives: whenever an ANALYZE
step does execute an estimate, its target is a member of the
remaining-to-analyze set (the impact-report list gains at most one report per
step, always for a remaining node). -/
theorem C1_amended_theorem (oracle : Oracle) (ag : InfrastructureAgent) (w : World)
    (hstate : ag.state = AgentState.ANALYZE)
    (hvalid : ∀ n ∈ ag.context_failures.getD [],
      (List.lookup n w.nodes).isSome ∧ n.isEmpty = false) :
    (((oracle ag w).action ≠ "estimate_impact" ∨
        ¬ truthyStr (oracle ag w).arguments.node_id) →
      ∀ n, ((ag.context_failures.getD []).filter
          (fun m => !(((ag.context_impact_reports.getD []).map
            (fun r => r.node_id)).contains m))).head? = some n →
        ∃ r, estimate_impact w n = some r ∧
          (InfrastructureAgent.step oracle ag w).2.1.context_impact_reports =
            some ((ag.context_impact_reports.getD []) ++ [r]) ∧ r.node_id = n) ∧
    ((InfrastructureAgent.step oracle ag w).2.1.context_impact_reports =
        ag.context_impact_reports ∨
      ∃ r, (InfrastructureAgent.step oracle ag w).2.1.context_impact_reports =
          some ((ag.context_impact_reports.getD []) ++ [r]) ∧
        r.node_id ∈ (ag.context_failures.getD []).filter
          (fun m => !(((ag.context_impact_reports.getD []).map
            (fun r => r.node_id)).contains m))) ∧
    (∀ n, (oracle ag w).action = "estimate_impact" →
      (oracle ag w).arguments.node_id = some n → n.isEmpty = false →
      (n ∉ ag.context_failures.getD [] ∨
        n ∈ (ag.context_impact_reports.getD []).map (fun r => r.node_id)) →
      (InfrastructureAgent.step oracle ag w).2.1.context_impact_reports =
          ag.context_impact_reports ∧
        (InfrastructureAgent.step oracle ag w).2.1.state = AgentState.ANALYZE ∧
        (InfrastructureAgent.step oracle ag w).2.2 = w) := by
  refine ⟨?_, ?_, ?_⟩
  · rw [step_reports_ANALYZE oracle ag w hstate]
    exact (execANALYZE_spec _ w _ _ _ _ _ rfl hvalid).1
  · rw [step_reports_ANALYZE oracle ag w hstate]
    exact (execANALYZE_spec _ w _ _ _ _ _ rfl hvalid).2
  · intro n hact hnid hne hbad
    obtain ⟨st, sc, ms, cf, ci, cp, hsl⟩ := ag
    dsimp only at hstate hact hnid hbad ⊢
    subst hstate
    simp only [InfrastructureAgent.step, execute_state_action]
    rw [execANALYZE_reject _ _ _ _ _ _ _ n hact hnid hne hbad]
    exact ⟨rfl, rfl, rfl⟩

/-- `agANALYZE` after one analysis: `Node_Water_Pump_A` already has a report. -/
def agANALYZE2 : InfrastructureAgent :=
  { state := .ANALYZE, step_count := 2, max_steps := 15,
    context_failures := some ["Node_Water_Pump_A", "Node_Power_Substation_C",
      "Node_Hospital_Generator", "Node_Water_Treatment"],
    context_impact_reports := some
      [{ node_id := "Node_Water_Pump_A", type := "Water", population_affected := 5000,
         criticality := .High }],
    context_repair_plan := none, history := [] }

/-- An oracle proposing to re-analyze the already-analyzed `Node_Water_Pump_A`. -/
def oracleRepeat : Oracle := fun _ _ =>
  { action := "estimate_impact", arguments := { node_id := some "Node_Water_Pump_A" } }

theorem C1_witness :
    (∃ r, estimate_impact WORLD_STATE "Node_Water_Pump_A" = some r ∧
      (InfrastructureAgent.step oracleNone agANALYZE WORLD_STATE).2.1.context_impact_reports =
        some ((agANALYZE.context_impact_reports.getD []) ++ [r]) ∧
      r.node_id = "Node_Water_Pump_A") ∧
    ((InfrastructureAgent.step oracleBogus agANALYZE WORLD_STATE).2.1.context_impact_reports =
        agANALYZE.context_impact_reports ∧
      (InfrastructureAgent.step oracleBogus agANALYZE WORLD_STATE).2.1.state =
        AgentState.ANALYZE ∧
      (InfrastructureAgent.step oracleBogus agANALYZE WORLD_STATE).2.2 = WORLD_STATE) ∧
    ((InfrastructureAgent.step oracleRepeat agANALYZE2 WORLD_STATE).2.1.context_impact_reports =
        agANALYZE2.context_impact_reports ∧
      (InfrastructureAgent.step oracleRepeat agANALYZE2 WORLD_STATE).2.1.state =
        AgentState.ANALYZE ∧
      (InfrastructureAgent.step oracleRepeat agANALYZE2 WORLD_STATE).2.2 = WORLD_STATE) :=
  ⟨(C1_amended_theorem oracleNone agANALYZE WORLD_STATE rfl (by decide)).1
      (Or.inl (by decide)) "Node_Water_Pump_A" rfl,
   (C1_amended_theorem oracleBogus agANALYZE WORLD_STATE rfl (by decide)).2.2
      "Bogus" rfl rfl rfl (Or.inl (by decide)),
   (C1_amended_theorem oracleRepeat agANALYZE2 WORLD_STATE rfl (by decide)).2.2
      "Node_Water_Pump_A" rfl rfl rfl (Or.inr (by decide))⟩

/-! ## C9 witness -/

/-- A world with no broken nodes. -/
def worldCalm : World :=
  { nodes := [("N1", { status := .Operational, type := "Power", population_affected := 100,
                       criticality := .Critical })],
    crews := [("C1", { status := .Available, specialty := "General" })] }

theorem C9_witness :
    (runAgent oracleNone (initAgent 5) worldCalm).1 = Except.ok () ∧
    (runAgent oracleNone (initAgent 5) worldCalm).2.1.state = AgentState.FINAL ∧
    (runAgent oracleNone (initAgent 5) worldCalm).2.1.step_count = 1 ∧
    (runAgent oracleNone (initAgent 5) worldCalm).2.1.history.length = 1 :=
  C9_theorem oracleNone worldCalm 5 (by decide) rfl
